import Mathlib

/-!
Verification of the cluster-rebalance core of AIStore (package `ais`,
rebalance manager). All definitions below are shallow embeddings of the Go
functions in the source file containing `rebManager`; external effects
(filesystem, transport, clock, concurrent mutations of atomics) are passed
in as explicit oracle inputs, and each definition follows the control flow
of its Go counterpart line by line. Durations are nanosecond counts
modelled as `Nat`; Go `int64` values (smap versions, rebalance generation
ids) are modelled as `Int`; daemon ids and object unique names are
modelled as `Nat` keys.
-/

set_option maxRecDepth 4096

/-! ## Rebalance stage enum (source: `rebStage*` constants) -/

def rebStageInactive : Nat := 0
def rebStageInit : Nat := 1
def rebStageTraverse : Nat := 2
def rebStageECNameSpace : Nat := 3
def rebStageWaitAck : Nat := 4
def rebStageFin : Nat := 5
def rebStageFinStreams : Nat := 6
def rebStageDone : Nat := 7

/-! ## Membership snapshot (`smapX`): version plus the set of target ids. -/

structure Smap where
  version : Int
  targets : List Nat
deriving DecidableEq

/-- `smap.CountTargets()`. -/
def Smap.countTargets (s : Smap) : Nat := s.targets.length

/-- `smap.GetTarget(tsid)`: yields the target when the daemon id is a member. -/
def Smap.getTarget (s : Smap) (tsid : Nat) : Option Nat :=
  if s.targets.contains tsid then some tsid else none

/-! ## WaitAck deadline (source: `rebManager.globalRebWaitAck`, deadline part)

    maxwt := config.Rebalance.DestRetryTime
    maxwt += time.Duration(int64(time.Minute) * int64(md.smap.CountTargets()/10))
    maxwt = cmn.MinDur(maxwt, config.Rebalance.DestRetryTime*2)
-/

/-- One minute in nanoseconds (`time.Minute`). -/
def minuteNs : Nat := 60000000000

/-- The WaitAck deadline computation of `globalRebWaitAck`. -/
def globalRebWaitAckMaxwt (destRetry : Nat) (s : Smap) : Nat :=
  Nat.min (destRetry + minuteNs * (s.countTargets / 10)) (destRetry * 2)

/-! ## Stream-bundle multiplier (source: `rebManager.beginStreams`)

    if config.Rebalance.Multiplier == 0 {
        config.Rebalance.Multiplier = 1
    } else if config.Rebalance.Multiplier > 8 {
        glog.Errorf(... "misconfigured?")
    }

The returned pair is (multiplier actually used for the object stream bundle
and for the per-jogger semaphore, whether the misconfiguration warning was
logged). Note that the `> 8` branch only logs: it does not change the value. -/
def beginStreamsMultiplier (m : Nat) : Nat × Bool :=
  if m = 0 then (1, false)
  else if 8 < m then (m, true)
  else (m, false)

/-- `globalRebRun`: `if multiplier > 1 { sema = make(chan struct{}, multiplier) }`;
the per-jogger concurrent-send semaphore capacity, `none` when no semaphore. -/
def globalRebRunSemaCap (multiplier : Nat) : Option Nat :=
  if 1 < multiplier then some multiplier else none

/-! ## Theorems for claims C7 and C9 -/

/-- C7: for every configuration and membership snapshot, the WaitAck deadline
equals `min(2*destRetryTime, destRetryTime + floor(|targets|/10) minutes)`,
the floor division being integer division of the target count by 10. -/
theorem waitack_deadline_formula (destRetry : Nat) (s : Smap) :
    globalRebWaitAckMaxwt destRetry s
      = Nat.min (2 * destRetry) (destRetry + (s.countTargets / 10) * minuteNs) := by
  simp only [globalRebWaitAckMaxwt, Smap.countTargets, Nat.min_def, minuteNs]
  split_ifs <;> omega

/-- C9 (amended): the multiplier actually used is at least 1 (a configured 0 is
replaced by 1); any configured value `m ≥ 1` is used unchanged — values above 8
are only logged as misconfigured, not lowered — and the warning fires exactly
for values above 8; moreover the per-jogger semaphore takes its capacity from
the same (unclamped) value. -/
theorem multiplier_used_bounds (m : Nat) :
    1 ≤ (beginStreamsMultiplier m).1
  ∧ (1 ≤ m → (beginStreamsMultiplier m).1 = m)
  ∧ (m = 0 → (beginStreamsMultiplier m).1 = 1)
  ∧ ((beginStreamsMultiplier m).2 = true ↔ 8 < m)
  ∧ (1 < m → globalRebRunSemaCap (beginStreamsMultiplier m).1 = some m) := by
  simp only [beginStreamsMultiplier, globalRebRunSemaCap]
  rcases Nat.eq_zero_or_pos m with h | h
  · subst h; simp
  · have hm : ¬ m = 0 := Nat.pos_iff_ne_zero.mp h
    by_cases h8 : 8 < m <;> simp [hm, h8] <;> omega

/-- C9 witness: the theorem instantiated at the concrete configured value 9. -/
theorem multiplier_used_bounds_witness :
    (beginStreamsMultiplier 9).1 = 9
  ∧ globalRebRunSemaCap (beginStreamsMultiplier 9).1 = some 9 := by
  refine ⟨(multiplier_used_bounds 9).2.1 (by decide),
          (multiplier_used_bounds 9).2.2.2.2 (by decide)⟩

/-- C9 counterexample: the claim as stated says every configured value is
clamped into `[1,8]`; at the concrete configured value 9 the value actually
used is 9, which is not lowered to 8. -/
theorem multiplier_clamp_counterexample :
    ¬ (1 ≤ (beginStreamsMultiplier 9).1 ∧ (beginStreamsMultiplier 9).1 ≤ 8) := by
  decide

/-! ## Serializer (source: `rebManager.serialize`)

The Go loop reads, on every iteration, the semaphore channel (non-blocking),
the current locally-known smap version, the most recently published
rebalance generation id, and the current global-rebalance xaction entry.
Each iteration's reads are one `SerIter`; the single-slot semaphore is
threaded through the recursion (taking the token sets `canRun`, which then
persists; returning early puts the token back iff it was taken). The
best-effort `otherXreb.Abort()` calls issued for an unfinished older-version
xaction are counted in `abortsIssued`. `none` means the observation list ran
out while the loop would have kept polling. -/

structure SerEntry where
  smapVersion : Int
  finished : Bool
deriving DecidableEq

structure SerIter where
  nver : Int
  pubID : Int
  entry : Option SerEntry
deriving DecidableEq

inductive SerOutcome
  | newerSmap
  | alreadyRunning
  | admitted
  | assertFail
deriving DecidableEq

structure SerResult where
  outcome : SerOutcome
  semaAfter : Bool
  abortsIssued : Nat
deriving DecidableEq

def serializeGo (ver g : Int) : List SerIter → Bool → Bool → Nat → Option SerResult
  | [], _, _, _ => none
  | it :: rest, canRun0, sema0, ab =>
    let canRun := canRun0 || sema0
    if ver < it.nver then some ⟨.newerSmap, canRun, ab⟩
    else if it.pubID = g then some ⟨.alreadyRunning, canRun, ab⟩
    else
      match it.entry with
      | none =>
        if canRun then some ⟨.admitted, false, ab⟩
        else serializeGo ver g rest canRun false ab
      | some e =>
        if canRun then
          if e.finished then some ⟨.admitted, false, ab⟩
          else some ⟨.assertFail, false, ab⟩
        else
          serializeGo ver g rest canRun false
            (if e.smapVersion < ver && !e.finished then ab + 1 else ab)

/-- `rebManager.serialize(smap, config, globRebID)` with `ver = smap.version()`,
`g = globRebID`, the per-iteration environment reads `iters`, and the initial
availability of the single-slot semaphore `sema0`. -/
def serialize (ver g : Int) (iters : List SerIter) (sema0 : Bool) : Option SerResult :=
  serializeGo ver g iters false sema0 0

/-- C1 (amended): on the first loop iteration, if the locally-known membership
version is strictly greater than `ver(M)`, `serialize` returns `newerSmap`
(this check takes precedence even when the published generation id equals
`g`); otherwise, if the most recently published generation id equals `g`, it
returns `alreadyRunning` without admitting a run. In both cases the semaphore
token, if it had been acquired, is released, so availability is restored to
what it was on entry. -/
theorem serialize_newer_smap_precedence (ver g : Int) (it : SerIter)
    (rest : List SerIter) (sema0 : Bool) :
    (ver < it.nver →
       serialize ver g (it :: rest) sema0 = some ⟨.newerSmap, sema0, 0⟩)
  ∧ (¬ ver < it.nver → it.pubID = g →
       serialize ver g (it :: rest) sema0 = some ⟨.alreadyRunning, sema0, 0⟩) := by
  constructor
  · intro h
    simp [serialize, serializeGo, h]
  · intro h hg
    simp [serialize, serializeGo, h, hg]

/-- C1 witness: a second call with the same generation id 9 (published id also
9) and an unchanged membership version returns `alreadyRunning` at once. -/
theorem serialize_already_running_witness :
    serialize 3 9 [⟨3, 9, none⟩] false = some ⟨.alreadyRunning, false, 0⟩ :=
  (serialize_newer_smap_precedence 3 9 ⟨3, 9, none⟩ [] false).2 (by decide) rfl

/-- C1 counterexample: the claim as stated requires `alreadyRunning = true`
whenever the published generation id equals `g`; in an invocation where the
locally-known membership version (2) also exceeds `ver(M) = 1`, the code
returns `newerSmap` with `alreadyRunning` false. -/
theorem serialize_both_conditions_counterexample :
    ¬ ((serialize 1 7 [⟨2, 7, none⟩] true).map SerResult.outcome
        = some SerOutcome.alreadyRunning) := by
  decide

/-! ## Ack table shards (source: `LomAcks`, `rebManager.lomAcks`)

Each shard's mutex-guarded map `q : map[string]*cluster.LOM` is modelled by
its key set, a duplicate-free list of unique names. -/

/-- Go map insert `q[uname] = lom` on the key set. -/
def shardInsert (l : List Nat) (u : Nat) : List Nat :=
  if l.contains u then l else u :: l

/-- Go map `delete(q, uname)` on the key set. -/
def shardDelete (l : List Nat) (u : Nat) : List Nat :=
  l.filter (fun x => x != u)

/-! ## Global jogger send (source: `globalRebJogger.send`)

Oracles: `loadOk` (`lom.Load(false)` returned nil), `lomExists`
(`lom.Exists()`), `isCopy` (`lom.IsCopy()`), `cksumOk`
(`lom.CksumComputeIfMissing()` returned nil), `fileOk`
(`cmn.NewFileHandle` returned nil), `sendOk` (`streams.SendV` returned
nil); `hkeyIdx` is the shard index from `lom.Hkey()` and `uname` is
`lom.Uname()`. The function records its lock/table/stream actions in an
event trace. Note that the `SendV` error is bound to a shadowed `err`
inside the `if`, so the named return value `err` stays nil on that path
(`errReturned = false`). -/

inductive SendEv
  | lock
  | insert (idx : Nat) (uname : Nat)
  | sendV
  | delete (idx : Nat) (uname : Nat)
  | unlock
deriving DecidableEq

structure SendInput where
  uname : Nat
  hkeyIdx : Nat
  loadOk : Bool
  lomExists : Bool
  isCopy : Bool
  cksumOk : Bool
  fileOk : Bool
  sendOk : Bool
deriving DecidableEq

structure SendResult where
  errReturned : Bool
  table : List (List Nat)
  events : List SendEv
  lockedAfter : Bool
deriving DecidableEq

def globalRebJoggerSend (inp : SendInput) (table : List (List Nat)) : SendResult :=
  if !inp.loadOk || !inp.lomExists || inp.isCopy then
    -- goto rerr: unlock, return err (nil unless Load failed)
    ⟨!inp.loadOk, table, [.lock, .unlock], false⟩
  else if !inp.cksumOk then
    ⟨true, table, [.lock, .unlock], false⟩
  else if !inp.fileOk then
    ⟨true, table, [.lock, .unlock], false⟩
  else
    let idx := inp.hkeyIdx
    let shard := table.getD idx []
    if inp.sendOk then
      ⟨false, table.set idx (shardInsert shard inp.uname),
       [.lock, .insert idx inp.uname, .sendV], true⟩
    else
      -- SendV failed: delete the just-inserted entry, goto rerr (unlock);
      -- the returned err is nil because the SendV err is shadowed.
      ⟨false, table.set idx (shardDelete (shardInsert shard inp.uname) inp.uname),
       [.lock, .insert idx inp.uname, .sendV, .delete idx inp.uname, .unlock], false⟩

/-- `a` occurs strictly before `b` in the list `l`. -/
def precedes (a b : SendEv) (l : List SendEv) : Prop :=
  ∃ l1 l2 l3, l = l1 ++ a :: l2 ++ b :: l3

/-- Writing back the element a list already holds at an index leaves the
list unchanged (also when the index is out of range, where `set` is a
no-op, matching the Go slice/map access pattern used for the shard array). -/
theorem list_set_getD_self {α : Type} (l : List α) (i : Nat) (d : α) :
    l.set i (l.getD i d) = l := by
  induction l generalizing i with
  | nil => rfl
  | cons a t ih =>
    cases i with
    | zero => simp [List.getD]
    | succ n =>
      simp only [List.getD_cons_succ, List.set]
      rw [ih]

/-- The same fact with the index-access normal form. -/
theorem list_set_get_self {α : Type} (l : List α) (i : Nat) (d : α) :
    l.set i ((l[i]?).getD d) = l := by
  simpa [List.getD] using list_set_getD_self l i d

/-- C3: whenever the stream send is invoked, the LOM's unique name was
inserted into the Ack shard selected by its home-hash index strictly before
the `SendV` call; and if the synchronous send call fails, the just-inserted
entry is removed again, the shared lock is released before `send` returns,
and — the object not having been pending before — the Ack table is left
exactly as it was. -/
theorem jogger_send_ack_shard_protocol (inp : SendInput) (table : List (List Nat))
    (h1 : inp.loadOk = true) (h2 : inp.lomExists = true) (h3 : inp.isCopy = false)
    (h4 : inp.cksumOk = true) (h5 : inp.fileOk = true)
    (h6 : inp.uname ∉ table.getD inp.hkeyIdx []) :
    precedes (.insert inp.hkeyIdx inp.uname) .sendV (globalRebJoggerSend inp table).events
  ∧ (inp.sendOk = false →
       (globalRebJoggerSend inp table).table = table
     ∧ (globalRebJoggerSend inp table).lockedAfter = false
     ∧ SendEv.unlock ∈ (globalRebJoggerSend inp table).events) := by
  have h6' : inp.uname ∉ (table[inp.hkeyIdx]?).getD [] := by
    simpa [List.getD] using h6
  have hins : shardInsert (table.getD inp.hkeyIdx []) inp.uname
      = inp.uname :: table.getD inp.hkeyIdx [] := by
    simp [shardInsert, List.getD, h6']
  have hdel : shardDelete (shardInsert (table.getD inp.hkeyIdx []) inp.uname) inp.uname
      = table.getD inp.hkeyIdx [] := by
    rw [hins]
    simp only [shardDelete, List.filter_cons, bne_self_eq_false]
    simp only [Bool.false_eq_true, if_false]
    apply List.filter_eq_self.mpr
    intro a ha
    simp only [bne_iff_ne, ne_eq]
    rintro rfl
    exact h6 ha
  constructor
  · by_cases hs : inp.sendOk = true
    · simp only [globalRebJoggerSend, h1, h2, h3, h4, h5, hs]
      simp only [Bool.not_true, Bool.false_or, Bool.or_false, Bool.false_eq_true,
        if_false, if_true]
      exact ⟨[.lock], [], [], rfl⟩
    · simp only [globalRebJoggerSend, h1, h2, h3, h4, h5,
        Bool.not_eq_true] at hs ⊢
      simp only [hs, Bool.not_true, Bool.false_or, Bool.or_false,
        Bool.false_eq_true, if_false]
      exact ⟨[.lock], [], [.delete inp.hkeyIdx inp.uname, .unlock], rfl⟩
  · intro hsf
    simp only [globalRebJoggerSend, h1, h2, h3, h4, h5, hsf]
    simp only [Bool.not_true, Bool.false_or, Bool.or_false, Bool.false_eq_true,
      if_false]
    refine ⟨?_, by simp, by simp⟩
    rw [hdel, list_set_getD_self]

/-- Concrete input for the C3 witness: a loadable, existing, non-copy object
with unique name 7 hashing to shard 0, whose `SendV` fails. -/
def sendInputC3 : SendInput :=
  ⟨7, 0, true, true, false, true, true, false⟩

/-- C3 witness: at the concrete failing send, the insert precedes the stream
call and the Ack table comes back unchanged with the lock released. -/
theorem jogger_send_witness :
    precedes (.insert 0 7) .sendV (globalRebJoggerSend sendInputC3 [[3], [4]]).events
  ∧ (globalRebJoggerSend sendInputC3 [[3], [4]]).table = [[3], [4]]
  ∧ (globalRebJoggerSend sendInputC3 [[3], [4]]).lockedAfter = false :=
  have h := jogger_send_ack_shard_protocol sendInputC3 [[3], [4]]
    rfl rfl rfl rfl rfl (by decide)
  ⟨h.1, (h.2 rfl).1, (h.2 rfl).2.1⟩

/-! ## Global jogger walk callback (source: `globalRebJogger.walk`)

Oracles, in the order the Go code consults them: the xaction's
aborted-or-finished flag, whether the directory entry is a directory,
whether `lom.Init` succeeded, whether `cluster.HrwTarget` succeeded,
whether the computed home target is this target, the current locally-known
smap version `nver` against the jogger's snapshot version `ver`, the GFN
filter lookup, whether `lom.Load()` succeeded, whether a per-jogger
semaphore exists (`rebalance.multiplier > 1`), and — for the synchronous
path — whether `rj.send` returned a non-nil error. The result is the
callback's effect; a non-nil returned error terminates `fs.Walk` for that
mountpath (the `filepath.Walk` convention, matching `jog`'s
"failed to traverse" logging and §7 of the spec, "continue with other
mountpaths"). -/

structure WalkInput where
  abortedOrFinished : Bool
  isDir : Bool
  initOk : Bool
  hrwOk : Bool
  homeIsSelf : Bool
  nver : Int
  ver : Int
  gfnHit : Bool
  loadOk : Bool
  multiplierGt1 : Bool
  syncSendErr : Bool
deriving DecidableEq

inductive WalkRes
  | errAbortedWalk
  | skipDir
  | skipInitErr
  | errHrw
  | skipSelf
  | errNewerSmap
  | skipGfn
  | errLoad
  | sentSyncOk
  | errSyncSend
  | spawnedAsync
deriving DecidableEq

def globalRebJoggerWalk (inp : WalkInput) : WalkRes :=
  if inp.abortedOrFinished then .errAbortedWalk
  else if inp.isDir then .skipDir
  else if !inp.initOk then .skipInitErr
  else if !inp.hrwOk then .errHrw
  else if inp.homeIsSelf then .skipSelf
  else if inp.ver < inp.nver then .errNewerSmap
  else if inp.gfnHit then .skipGfn
  else if !inp.loadOk then .errLoad
  else if inp.multiplierGt1 then .spawnedAsync
  else if inp.syncSendErr then .errSyncSend
  else .sentSyncOk

/-- Whether the callback returned nil, so that `fs.Walk` proceeds to the
remaining entries of the mountpath. -/
def walkContinues : WalkRes → Bool
  | .skipDir | .skipInitErr | .skipSelf | .skipGfn | .sentSyncOk | .spawnedAsync => true
  | _ => false

/-- C8 (amended): for a file entry whose home target differs from self and
which the GFN filter does not match, a `lom.Load()` error makes the walk
callback return that error, which terminates the traversal of that
mountpath (only the other mountpaths' walks continue); the object is not
sent. -/
theorem walk_load_error_stops_walk (inp : WalkInput)
    (h1 : inp.abortedOrFinished = false) (h2 : inp.isDir = false)
    (h3 : inp.initOk = true) (h4 : inp.hrwOk = true)
    (h5 : inp.homeIsSelf = false) (h6 : ¬ inp.ver < inp.nver)
    (h7 : inp.gfnHit = false) (h8 : inp.loadOk = false) :
    globalRebJoggerWalk inp = .errLoad
  ∧ walkContinues (globalRebJoggerWalk inp) = false := by
  simp [globalRebJoggerWalk, h1, h2, h3, h4, h5, h6, h7, h8, walkContinues]

/-- Concrete input for C8: valid misplaced object, no GFN hit, failing
`lom.Load()`. -/
def walkInputC8 : WalkInput :=
  ⟨false, false, true, true, false, 4, 4, false, false, false, false⟩

/-- C8 witness: the theorem at the concrete input. -/
theorem walk_load_error_witness :
    globalRebJoggerWalk walkInputC8 = .errLoad
  ∧ walkContinues (globalRebJoggerWalk walkInputC8) = false :=
  walk_load_error_stops_walk walkInputC8 rfl rfl rfl rfl rfl (by decide) rfl rfl

/-- C8 counterexample: the claim as stated says the object is skipped and the
walk continues with the remaining entries; at the concrete input the callback
does not return nil, so the mountpath's walk stops. -/
theorem walk_load_error_counterexample :
    ¬ walkContinues (globalRebJoggerWalk walkInputC8) = true := by
  decide

/-! ## Retransmit (source: `rebManager.retransmit`)

Per-entry oracles for the checks retransmit itself performs: `loadOk`
(`lom.Load(false)` nil), `lomExists` (`lom.Exists()`), `headPresent`
(`t.lookupRemoteSingle(lom, tsi)`, the remote HEAD probe, reported the
object present). When all three pass, the entry is handed to
`rj.send(lom, tsi)`; `send` holds the oracles of that inner call
(`SendInput` as for the jogger's own sends; its `uname` and `hkeyIdx`
denote the same LOM, hence the same unique name and the shard currently
being scanned, and the classifier functions below do not depend on them).
The send branch never deletes the entry from the shard: `send` re-inserts
the key the entry is already under before `SendV` and deletes it only when
`SendV` itself fails — in which case `send` still returns nil because the
`SendV` error is shadowed, so retransmit counts it. The three classifiers
`sendReturnsErr`, `sendDeletesEntry` and `sendStreamed` restate the
corresponding observables of `globalRebJoggerSend`; the agreement theorems
below prove they coincide with it. `abortAfterSend` is the `aborted()`
closure — `xreb.Aborted()` or a changed smap version — observed at the
check that follows a send attempt (the Go code performs this check only on
the send branch; the `delete`+`continue` branches skip it),
`abortAfterShard` the one after a shard's mutex is released, and
`abortAtStart` the one on entry. On any abort the Go function returns the
literal 0, discarding the count accumulated so far; `sent` records the
unique names actually handed to the stream, and `shardsAfter` the keys
each shard still holds. -/

/-- Whether `globalRebJoggerSend`'s named return `err` is non-nil: only the
load/checksum/file-open failures — a `SendV` failure is shadowed and a
failed existence or copy re-check returns the nil `err`. -/
def sendReturnsErr (inp : SendInput) : Bool :=
  if !inp.loadOk || !inp.lomExists || inp.isCopy then !inp.loadOk
  else if !inp.cksumOk then true
  else if !inp.fileOk then true
  else false

/-- Whether `globalRebJoggerSend` ends up deleting its key from the Ack
shard: exactly the path that reaches `SendV` and has it fail. -/
def sendDeletesEntry (inp : SendInput) : Bool :=
  if !inp.loadOk || !inp.lomExists || inp.isCopy then false
  else if !inp.cksumOk then false
  else if !inp.fileOk then false
  else !inp.sendOk

/-- Whether `globalRebJoggerSend` actually handed the object to the stream:
the path that reaches `SendV` and has it succeed. -/
def sendStreamed (inp : SendInput) : Bool :=
  if !inp.loadOk || !inp.lomExists || inp.isCopy then false
  else if !inp.cksumOk then false
  else if !inp.fileOk then false
  else inp.sendOk

/-- `sendReturnsErr` agrees with the embedded jogger send. -/
theorem sendReturnsErr_agrees (inp : SendInput) (table : List (List Nat)) :
    (globalRebJoggerSend inp table).errReturned = sendReturnsErr inp := by
  rcases inp with ⟨u, i, l, ex, c, ck, f, s⟩
  cases l <;> cases ex <;> cases c <;> cases ck <;> cases f <;> cases s <;> rfl

/-- `sendStreamed` agrees with the embedded jogger send: the shared lock is
still held on return (for the completion callback) exactly when the object
went out to the stream. -/
theorem sendStreamed_agrees (inp : SendInput) (table : List (List Nat)) :
    (globalRebJoggerSend inp table).lockedAfter = sendStreamed inp := by
  rcases inp with ⟨u, i, l, ex, c, ck, f, s⟩
  cases l <;> cases ex <;> cases c <;> cases ck <;> cases f <;> cases s <;> rfl

/-- `sendDeletesEntry` agrees with the embedded jogger send: for a key the
shard already holds (as is the case for every Ack-table entry retransmit
hands to `send`), the table is unchanged unless `SendV` fails, in which
case exactly that key is deleted. -/
theorem sendDeletesEntry_agrees (inp : SendInput) (table : List (List Nat))
    (h : inp.uname ∈ table.getD inp.hkeyIdx []) :
    (globalRebJoggerSend inp table).table
      = if sendDeletesEntry inp = true
        then table.set inp.hkeyIdx (shardDelete (table.getD inp.hkeyIdx []) inp.uname)
        else table := by
  rcases inp with ⟨u, i, l, ex, c, ck, f, s⟩
  have h1 : u ∈ (table[i]?).getD [] := by simpa [List.getD] using h
  cases l <;> cases ex <;> cases c <;> cases ck <;> cases f <;> cases s <;>
    simp [globalRebJoggerSend, sendDeletesEntry, shardInsert, List.getD, h1,
      list_set_get_self]

/-- An object handed to the stream always yields a nil return from `send`
(so it is always counted). -/
theorem sendStreamed_counts (inp : SendInput) (h : sendStreamed inp = true) :
    sendReturnsErr inp = false := by
  rcases inp with ⟨u, i, l, ex, c, ck, f, s⟩
  cases l <;> cases ex <;> cases c <;> cases ck <;> cases f <;> cases s <;>
    simp_all [sendStreamed, sendReturnsErr]

structure RetransEntry where
  uname : Nat
  loadOk : Bool
  lomExists : Bool
  headPresent : Bool
  send : SendInput
  abortAfterSend : Bool
deriving DecidableEq

structure RetransShard where
  entries : List RetransEntry
  abortAfterShard : Bool
deriving DecidableEq

structure RetransResult where
  cnt : Nat
  sent : List Nat
  shardsAfter : List (List Nat)
  abortedDuring : Bool
deriving DecidableEq

/-- The entry is deleted by retransmit's own checks (dispositions (a) and
(b) of the claim): failed reload, vanished LOM, or HEAD-present. -/
def entDropped (e : RetransEntry) : Bool :=
  !e.loadOk || !e.lomExists || e.headPresent

/-- The entry is still in its shard after the pass: not dropped, and the
inner send did not delete it (which only a `SendV` failure does). -/
def entKept (e : RetransEntry) : Bool :=
  !entDropped e && !sendDeletesEntry e.send

/-- The entry's object was actually handed to the stream by the pass. -/
def entStreamed (e : RetransEntry) : Bool :=
  !entDropped e && sendStreamed e.send

/-- The entry incremented the counter: `rj.send` was called and returned
nil. -/
def entCounted (e : RetransEntry) : Bool :=
  !entDropped e && !sendReturnsErr e.send

/-- Result of scanning one shard: keys kept, unames handed to the stream,
local count, and whether the mid-shard `aborted()` check fired (an
immediate return). -/
structure ShardPass where
  kept : List Nat
  sent : List Nat
  cnt : Nat
  aborted : Bool
deriving DecidableEq

def procShard : List RetransEntry → ShardPass
  | [] => ⟨[], [], 0, false⟩
  | e :: es =>
    if !e.loadOk then procShard es            -- delete(q, uname); continue
    else if !e.lomExists then procShard es    -- delete(q, uname); continue
    else if e.headPresent then procShard es   -- delete(q, uname); continue
    else
      -- rj.send(lom, tsi): the entry stays in the shard (send re-inserts
      -- the key it is already under) unless SendV itself fails, in which
      -- case send deletes it; cnt++ exactly when send's named return err
      -- is nil (which includes the shadowed SendV failure).
      let kept0 : List Nat := if sendDeletesEntry e.send then [] else [e.uname]
      let sent0 : List Nat := if sendStreamed e.send then [e.uname] else []
      let c0 : Nat := if sendReturnsErr e.send then 0 else 1
      if e.abortAfterSend then
        ⟨kept0 ++ es.map RetransEntry.uname, sent0, 0, true⟩
      else
        let r := procShard es
        ⟨kept0 ++ r.kept, sent0 ++ r.sent, c0 + r.cnt, r.aborted⟩

def retransGo : List RetransShard → RetransResult
  | [] => ⟨0, [], [], false⟩
  | sh :: rest =>
    let p := procShard sh.entries
    if p.aborted then
      ⟨0, p.sent, p.kept :: rest.map (fun r => r.entries.map RetransEntry.uname), true⟩
    else if sh.abortAfterShard then
      ⟨0, p.sent, p.kept :: rest.map (fun r => r.entries.map RetransEntry.uname), true⟩
    else
      let q := retransGo rest
      ⟨if q.abortedDuring then 0 else p.cnt + q.cnt,
       p.sent ++ q.sent, p.kept :: q.shardsAfter, q.abortedDuring⟩

/-- `rebManager.retransmit(xreb, globRebID)`. -/
def retransmit (abortAtStart : Bool) (shards : List RetransShard) : RetransResult :=
  if abortAtStart then
    ⟨0, [], shards.map (fun sh => sh.entries.map RetransEntry.uname), true⟩
  else retransGo shards

/-- `globalRebWaitAck` step 9: `if cnt == 0 || md.xreb.Aborted() { break }` —
whether the outer wait loop exits after a retransmit pass. -/
def waitAckExits (cnt : Nat) (aborted : Bool) : Bool :=
  cnt == 0 || aborted

/-- Scanning a shard none of whose entries observes an abort keeps exactly
the non-dropped entries whose inner send did not delete them, streams
exactly the `entStreamed` ones, and counts exactly the `entCounted` ones. -/
theorem procShard_no_abort (es : List RetransEntry)
    (h : ∀ e ∈ es, e.abortAfterSend = false) :
    procShard es
      = ⟨(es.filter entKept).map RetransEntry.uname,
         (es.filter entStreamed).map RetransEntry.uname,
         (es.filter entCounted).length,
         false⟩ := by
  induction es with
  | nil => rfl
  | cons e es ih =>
    have he : e.abortAfterSend = false := h e (List.mem_cons_self e es)
    have hrest := ih (fun x hx => h x (List.mem_cons_of_mem e hx))
    cases hL : e.loadOk with
    | false =>
      simp [procShard, hL, hrest, List.filter_cons,
        entKept, entStreamed, entCounted, entDropped]
    | true =>
      cases hE : e.lomExists with
      | false =>
        simp [procShard, hL, hE, hrest, List.filter_cons,
          entKept, entStreamed, entCounted, entDropped]
      | true =>
        cases hH : e.headPresent with
        | true =>
          simp [procShard, hL, hE, hH, hrest, List.filter_cons,
            entKept, entStreamed, entCounted, entDropped]
        | false =>
          by_cases hd : sendDeletesEntry e.send = true <;>
          by_cases hs : sendStreamed e.send = true <;>
          by_cases hc : sendReturnsErr e.send = true <;>
            simp [procShard, hL, hE, hH, he, hrest, List.filter_cons,
              entKept, entStreamed, entCounted, entDropped, hd, hs, hc,
              Nat.add_comm]

/-- A pass over shards in which no abort check ever fires counts one per
nil-returning send attempt, streams the `entStreamed` entries, and leaves
each shard holding exactly its `entKept` entries. -/
theorem retransGo_no_abort (shards : List RetransShard)
    (h : ∀ sh ∈ shards, sh.abortAfterShard = false
           ∧ ∀ e ∈ sh.entries, e.abortAfterSend = false) :
    retransGo shards
      = ⟨(shards.flatMap (fun sh =>
            (sh.entries.filter entCounted).map RetransEntry.uname)).length,
         shards.flatMap (fun sh =>
           (sh.entries.filter entStreamed).map RetransEntry.uname),
         shards.map (fun sh =>
           (sh.entries.filter entKept).map RetransEntry.uname),
         false⟩ := by
  induction shards with
  | nil => rfl
  | cons sh rest ih =>
    have hsh := h sh (List.mem_cons_self sh rest)
    have hrest := ih (fun x hx => h x (List.mem_cons_of_mem sh hx))
    have hp := procShard_no_abort sh.entries hsh.2
    simp [retransGo, hp, hsh.1, hrest, List.flatMap_cons, List.length_append]

/-- C2 (amended): for every entry (uname, lom) present in an Ack shard when
retransmit runs, exactly one of: (a) the entry is deleted because
reloading the LOM fails or the LOM no longer exists; (b) the entry is
deleted because the remote HEAD probe to the recomputed home target
reports the object present; or (c) the entry is handed to the jogger's
send routine and stays in the shard awaiting a new ack — except that a
failure of the stream call itself deletes the entry (send removes the key
it had just re-inserted) — with the returned counter incremented exactly
when that send routine returns nil, which, the stream error being
shadowed, includes the stream-failure case. Provided no abort or
membership-version change is observed during the pass, the returned count
equals the number of nil-returning send attempts, and — every
actually-streamed object yielding a nil return — a returned count of zero
then means no object was resent in that pass. -/
theorem retransmit_entry_dispositions (shards : List RetransShard)
    (h : ∀ sh ∈ shards, sh.abortAfterShard = false
           ∧ ∀ e ∈ sh.entries, e.abortAfterSend = false) :
    (retransmit false shards).abortedDuring = false
  ∧ (retransmit false shards).shardsAfter
      = shards.map (fun sh => (sh.entries.filter entKept).map RetransEntry.uname)
  ∧ (retransmit false shards).sent
      = shards.flatMap (fun sh => (sh.entries.filter entStreamed).map RetransEntry.uname)
  ∧ (retransmit false shards).cnt
      = (shards.flatMap (fun sh =>
          (sh.entries.filter entCounted).map RetransEntry.uname)).length
  ∧ ((retransmit false shards).cnt = 0 → (retransmit false shards).sent = []) := by
  have hg := retransGo_no_abort shards h
  have hr : retransmit false shards
      = ⟨(shards.flatMap (fun sh =>
            (sh.entries.filter entCounted).map RetransEntry.uname)).length,
         shards.flatMap (fun sh =>
           (sh.entries.filter entStreamed).map RetransEntry.uname),
         shards.map (fun sh =>
           (sh.entries.filter entKept).map RetransEntry.uname),
         false⟩ := by
    simp only [retransmit, Bool.false_eq_true, if_false]
    exact hg
  refine ⟨by rw [hr], by rw [hr], by rw [hr], by rw [hr], ?_⟩
  rw [hr]
  intro h0
  have h0' : shards.flatMap (fun sh =>
      (sh.entries.filter entCounted).map RetransEntry.uname) = [] := by
    exact List.length_eq_zero.mp h0
  refine List.flatMap_eq_nil_iff.mpr ?_
  intro sh hsh
  have hcnt : (sh.entries.filter entCounted).map RetransEntry.uname = [] :=
    List.flatMap_eq_nil_iff.mp h0' sh hsh
  have hcf : sh.entries.filter entCounted = [] := by
    exact List.map_eq_nil_iff.mp hcnt
  have hsf : sh.entries.filter entStreamed = [] := by
    refine List.filter_eq_nil_iff.mpr ?_
    intro a ha hstr
    have hac : entCounted a = true := by
      have h1 : entDropped a = false ∧ sendStreamed a.send = true := by
        simpa [entStreamed] using hstr
      simp [entCounted, h1.1, sendStreamed_counts a.send h1.2]
    have : a ∈ sh.entries.filter entCounted := List.mem_filter.mpr ⟨ha, hac⟩
    rw [hcf] at this
    exact absurd this (List.not_mem_nil a)
  rw [hsf]
  rfl

/-- Concrete no-abort shards for the C2 witness. Shard 0: entry 1 (reload
fails: deleted), entry 2 (HEAD present: deleted), entry 3 (streamed and
counted: stays in the shard awaiting its new ack), entry 4 (`SendV` fails:
send deletes it, yet it is counted because the error is shadowed), entry 5
(the inner send's own load fails: kept, not counted); shard 1: entry 6
(no longer exists: deleted). -/
def shardsC2W : List RetransShard :=
  [⟨[⟨1, false, true, false, ⟨1, 0, true, true, false, true, true, true⟩, false⟩,
     ⟨2, true, true, true, ⟨2, 0, true, true, false, true, true, true⟩, false⟩,
     ⟨3, true, true, false, ⟨3, 0, true, true, false, true, true, true⟩, false⟩,
     ⟨4, true, true, false, ⟨4, 0, true, true, false, true, true, false⟩, false⟩,
     ⟨5, true, true, false, ⟨5, 0, false, true, false, true, true, true⟩, false⟩], false⟩,
   ⟨[⟨6, true, false, false, ⟨6, 0, true, true, false, true, true, true⟩, false⟩], false⟩]

/-- C2 witness: the dispositions theorem at the concrete shards — the
successfully resent entry 3 stays in its shard (with the failed inner-load
entry 5), only object 3 was streamed, and the count is 2 (entry 4's
shadowed stream failure is counted too). -/
theorem retransmit_dispositions_witness :
    (retransmit false shardsC2W).shardsAfter = [[3, 5], []]
  ∧ (retransmit false shardsC2W).sent = [3]
  ∧ (retransmit false shardsC2W).cnt = 2 :=
  have h := retransmit_entry_dispositions shardsC2W (by decide)
  ⟨by rw [h.2.1]; decide, by rw [h.2.2.1]; decide, by rw [h.2.2.2.1]; decide⟩

/-- Concrete shards for the C2 counterexample: entry 1's send attempt
returns an error (it is neither deleted nor counted), then entry 2 is
streamed and the abort check that follows the send fires, so the function
returns 0. -/
def shardsC2X : List RetransShard :=
  [⟨[⟨1, true, true, false, ⟨1, 0, false, true, false, true, true, true⟩, false⟩,
     ⟨2, true, true, false, ⟨2, 0, true, true, false, true, true, true⟩, true⟩], false⟩]

/-- C2 counterexample: the claim as stated requires every entry to be
deleted or resent-and-counted, and a zero return to mean nothing was
resent; at the concrete input entry 1 is neither deleted nor resent, and
the pass returns 0 although it resent entry 2. -/
theorem retransmit_zero_count_counterexample :
    ¬ (((1 : Nat) ∉ (retransmit false shardsC2X).shardsAfter.getD 0 []
          ∨ (1 : Nat) ∈ (retransmit false shardsC2X).sent)
       ∧ ((retransmit false shardsC2X).cnt = 0
            → (retransmit false shardsC2X).sent = [])) := by
  decide

/-- C10: whenever retransmit observes, at any of its abort checks (on
entry, after a send attempt, or between shards), that the xaction was
aborted or the membership version changed, it returns a count of 0
regardless of how many objects it had already resent — and the WaitAck
caller's loop-exit test on that zero count fires even with the xaction not
aborted at the caller's own check. -/
theorem retransmit_abort_returns_zero (abortAtStart : Bool)
    (shards : List RetransShard)
    (h : (retransmit abortAtStart shards).abortedDuring = true) :
    (retransmit abortAtStart shards).cnt = 0
  ∧ waitAckExits (retransmit abortAtStart shards).cnt false = true := by
  suffices hc : (retransmit abortAtStart shards).cnt = 0 by
    exact ⟨hc, by simp [waitAckExits, hc]⟩
  by_cases hs : abortAtStart = true
  · simp [retransmit, hs]
  · simp only [retransmit, if_neg hs] at h ⊢
    clear hs
    induction shards with
    | nil => simp [retransGo] at h
    | cons sh rest ih =>
      simp only [retransGo] at h ⊢
      by_cases hp : (procShard sh.entries).aborted = true
      · simp [hp]
      · simp only [Bool.not_eq_true] at hp
        by_cases ha : sh.abortAfterShard = true
        · simp [hp, ha]
        · simp only [Bool.not_eq_true] at ha
          simp only [hp, ha, Bool.false_eq_true, if_false] at h ⊢
          simp [h]

/-- Concrete shards for the C10 witness: the single entry is resent and the
abort check right after the send fires. -/
def shardsC10 : List RetransShard :=
  [⟨[⟨6, true, true, false, ⟨6, 0, true, true, false, true, true, true⟩, true⟩], false⟩]

/-- C10 witness: the pass resent object 6, yet returns 0, and the WaitAck
loop-exit test on the returned count fires. -/
theorem retransmit_abort_witness :
    ((retransmit false shardsC10).cnt = 0
       ∧ waitAckExits (retransmit false shardsC10).cnt false = true)
  ∧ (retransmit false shardsC10).sent = [6] :=
  ⟨retransmit_abort_returns_zero false shardsC10 (by decide), by decide⟩

/-! ## Object receive handler (source: `rebManager.recvObj`)

`smap0` is the initial atomic load of the membership snapshot pointer
(`nil` when the handler ran before Init published it); `smapObs i` is the
value of the i-th re-load inside the back-off loop. The loop is

    maxwt = cmn.MinDur(config.Rebalance.DestRetryTime, config.Timeout.SendFile/3)
    time.Sleep(sleep)
    for curwt < maxwt { smap = load(); if smap != nil break; time.Sleep(sleep); curwt += sleep }
    if curwt >= maxwt { glog.Errorf(... "dropping" ...); return }   // no drain here

modelled by `waitSmapGo` with enough fuel for every `cplane ≥ 1` (for
`cplane = 0` the Go loop would spin forever; theorems assume `1 ≤ cplane`).
Remaining oracles: `initOk` (`lom.Init` nil), `aborted`/`running` (the
`isRebalancing(ActGlobalReb)` query), `stage` (the two `reb.stage.Load()`
reads, equal in a single-handler execution), `putOk` (`poi.putObject` nil).
The outcome records whether the incoming reader was drained
(`io.Copy(ioutil.Discard, ...)` — executed only on the absent/aborted
xaction path), whether the object was persisted, whether `laterx` was set,
and whether an ack send was issued via the ack bundle. -/

def waitSmapGo (obs : Nat → Option Smap) (sleep maxwt : Nat) :
    Nat → Nat → Nat → Option Smap
  | 0, _, _ => none
  | fuel + 1, i, curwt =>
    if curwt < maxwt then
      match obs i with
      | some s => some s
      | none => waitSmapGo obs sleep maxwt fuel (i + 1) (curwt + sleep)
    else none

def waitSmap (obs : Nat → Option Smap) (sleep maxwt : Nat) : Option Smap :=
  waitSmapGo obs sleep maxwt (maxwt + 1) 0 0

structure RecvInput where
  transportErr : Bool
  smap0 : Option Smap
  cplane : Nat
  destRetry : Nat
  sendFile : Nat
  smapObs : Nat → Option Smap
  hdrOpaque : Nat
  initOk : Bool
  aborted : Bool
  running : Bool
  stage : Nat
  putOk : Bool

inductive RecvExit
  | transportErr
  | timedOut
  | initErr
  | notRunning
  | putErr
  | doneNoTsi
  | done
deriving DecidableEq

structure RecvOutcome where
  exit : RecvExit
  drained : Bool
  persisted : Bool
  laterxSet : Bool
  ackSent : Bool
deriving DecidableEq

/-- The handler body once the membership snapshot `s` is at hand. -/
def recvObjRest (s : Smap) (inp : RecvInput) : RecvOutcome :=
  let tsi := s.getTarget inp.hdrOpaque
  if !inp.initOk then ⟨.initErr, false, false, false, false⟩
  else if inp.aborted || !inp.running then ⟨.notRunning, true, false, false, false⟩
  else
    let laterx := decide (rebStageFin ≤ inp.stage)
    if !inp.putOk then ⟨.putErr, false, false, laterx, false⟩
    else
      match tsi with
      | none => ⟨.doneNoTsi, false, true, laterx, false⟩
      | some _ =>
        if inp.stage < rebStageFinStreams ∧ inp.stage ≠ rebStageInactive then
          ⟨.done, false, true, laterx, true⟩
        else ⟨.done, false, true, laterx, false⟩

def recvObj (inp : RecvInput) : RecvOutcome :=
  if inp.transportErr then ⟨.transportErr, false, false, false, false⟩
  else
    match inp.smap0 with
    | some s => recvObjRest s inp
    | none =>
      match waitSmap inp.smapObs inp.cplane
          (Nat.min inp.destRetry (inp.sendFile / 3)) with
      | some s => recvObjRest s inp
      | none => ⟨.timedOut, false, false, false, false⟩

/-- If every re-load of the snapshot pointer yields nil, the back-off loop
times out. -/
theorem waitSmapGo_all_none (obs : Nat → Option Smap) (sleep maxwt : Nat)
    (h : ∀ i, obs i = none) :
    ∀ fuel i curwt, waitSmapGo obs sleep maxwt fuel i curwt = none := by
  intro fuel
  induction fuel with
  | zero => intro i curwt; rfl
  | succ f ih =>
    intro i curwt
    simp only [waitSmapGo, h i]
    split <;> simp [ih]

/-- C4 (amended): a handler invocation arriving while the membership
snapshot pointer is unpublished waits in `cplaneOperation`-sized steps
against the budget `min(destRetryTime, sendFile/3)`; if the pointer stays
nil at every check it returns having neither drained the reader nor
persisted nor acked the object, and if some check observes the published
pointer `s` the object is processed exactly as it would be with `s`
available from the start. -/
theorem recvObj_unpublished_smap_wait (inp : RecvInput)
    (h0 : inp.transportErr = false) (h1 : inp.smap0 = none)
    (h2 : 1 ≤ inp.cplane) :
    ((∀ i, inp.smapObs i = none) →
       recvObj inp = ⟨.timedOut, false, false, false, false⟩)
  ∧ (∀ s, waitSmap inp.smapObs inp.cplane
        (Nat.min inp.destRetry (inp.sendFile / 3)) = some s →
       recvObj inp = recvObjRest s inp) := by
  constructor
  · intro hall
    simp [recvObj, h0, h1, waitSmap, waitSmapGo_all_none _ _ _ hall]
  · intro s hs
    simp [recvObj, h0, h1, hs]

/-- Concrete input for C4: pointer never published, `cplane = 1ns`,
`destRetry = 5ns`, `sendFile = 30ns` (so the budget is `min(5, 10) = 5`). -/
def recvInputC4 : RecvInput :=
  ⟨false, none, 1, 5, 30, fun _ => none, 11, true, false, true,
   rebStageTraverse, true⟩

/-- C4 witness: the timeout branch at the concrete input — the handler
returns without draining, persisting, or acking. -/
theorem recvObj_wait_witness :
    recvObj recvInputC4 = ⟨.timedOut, false, false, false, false⟩ :=
  (recvObj_unpublished_smap_wait recvInputC4 rfl rfl (by decide)).1 (fun _ => rfl)

/-- C4 counterexample: the claim as stated says the handler drains the
incoming reader when the deadline expires with the pointer still nil; at
the concrete input it times out without draining (`io.Copy` to the discard
sink is only on the absent/aborted-xaction path, not the timeout path). -/
theorem recvObj_timeout_drain_counterexample :
    ¬ ((recvObj recvInputC4).exit = RecvExit.timedOut
         → (recvObj recvInputC4).drained = true) := by
  decide

/-- C6: under a live, non-aborted rebalance with the snapshot published and
the object's put succeeding: a local stage `≥ FIN` at receipt sets the
`laterx` flag and the object is still accepted and persisted; and an ack
(header opaque set to the self daemon id, payload size zero, destination
the sender target found in the snapshot by the header's opaque) is sent
exactly when the local stage is `< FIN_STREAMS` and `!= INACTIVE`. -/
theorem recvObj_stage_ack (inp : RecvInput) (s : Smap) (t : Nat)
    (h0 : inp.transportErr = false) (h1 : inp.smap0 = some s)
    (h2 : inp.initOk = true) (h3 : inp.aborted = false)
    (h4 : inp.running = true) (h5 : inp.putOk = true)
    (h6 : s.getTarget inp.hdrOpaque = some t) :
    (rebStageFin ≤ inp.stage →
       (recvObj inp).laterxSet = true ∧ (recvObj inp).persisted = true)
  ∧ ((recvObj inp).ackSent = true
       ↔ (inp.stage < rebStageFinStreams ∧ inp.stage ≠ rebStageInactive)) := by
  simp only [recvObj, h0, Bool.false_eq_true, if_false, h1]
  simp only [recvObjRest, h2, h3, h4, h5, h6, Bool.not_true, Bool.false_or,
    Bool.or_false, Bool.false_eq_true, if_false]
  constructor
  · intro hfin
    constructor
    · split <;> simp [hfin]
    · split <;> rfl
  · constructor
    · intro hack
      by_contra hc
      simp only [if_neg hc] at hack
      exact absurd hack (by simp)
    · intro hc
      simp [if_pos hc]

/-- Concrete input for C6: snapshot with targets 11 and 22, sender 11,
local stage `FIN`. -/
def recvInputC6 : RecvInput :=
  ⟨false, some ⟨4, [11, 22]⟩, 1, 5, 30, fun _ => none, 11, true, false, true,
   rebStageFin, true⟩

/-- C6 witness: at stage `FIN` the late object is persisted with `laterx`
set, and the ack is still sent (`FIN < FIN_STREAMS`). -/
theorem recvObj_stage_ack_witness :
    ((recvObj recvInputC6).laterxSet = true
       ∧ (recvObj recvInputC6).persisted = true)
  ∧ (recvObj recvInputC6).ackSent = true :=
  have h := recvObj_stage_ack recvInputC6 ⟨4, [11, 22]⟩ 11
    rfl rfl rfl rfl rfl rfl (by decide)
  ⟨h.1 (by decide), h.2.mpr (by decide)⟩

/-! ## In-progress marker (source: `rebManager.globalRebInit` step 4,
`rebManager.globalRebFini`)

Init (the part after the always-succeeding xaction renewal): store stage
`INIT`, create the persistent mark via `cmn.CreateFile` — on failure only
log and blank `md.pmarker` — publish the snapshot pointer and the
generation id, and return true. Fini: run the quiescence loop
(`maxquiet = 10`; `casSeq i` is what `laterx.CAS(true, false)` returned on
iteration i, `abortSeq i` what `abortedAfter(sleep)` returned, `aborted0`
the initial `Aborted()`), then remove the marker only when not aborted
(`removeOk` is the `cmn.RemoveFile` oracle; failure only logs), close
streams, store stage `DONE`, and release the serializer semaphore. `none`
means the supplied fuel ran out while `laterx` kept being re-set. -/

structure InitResult where
  returned : Bool
  stage : Nat
  markerExists : Bool
  pmarkerSet : Bool
  smapPublished : Bool
  pubRebID : Int
deriving DecidableEq

def globalRebInit (createOk : Bool) (g : Int) : InitResult :=
  { returned := true
    stage := rebStageInit
    markerExists := createOk
    pmarkerSet := createOk
    smapPublished := true
    pubRebID := g }

def finiLoop (casSeq abortSeq : Nat → Bool) : Nat → Nat → Nat → Bool → Option Bool
  | 0, _, _, _ => none
  | fuel + 1, i, quiescent, aborted =>
    if quiescent < 10 && !aborted then
      finiLoop casSeq abortSeq fuel (i + 1)
        (if !(casSeq i) then quiescent + 1 else 0) (abortSeq i)
    else some aborted

structure FinResult where
  abortedFinal : Bool
  removeAttempted : Bool
  markerAfter : Bool
  semaReleased : Bool
  stage : Nat
deriving DecidableEq

def globalRebFini (markerExists removeOk aborted0 : Bool)
    (casSeq abortSeq : Nat → Bool) (fuel : Nat) : Option FinResult :=
  (finiLoop casSeq abortSeq fuel 0 0 aborted0).map (fun ab =>
    { abortedFinal := ab
      removeAttempted := !ab
      markerAfter := if !ab && removeOk then false else markerExists
      semaReleased := true
      stage := rebStageDone })

/-- C5: the marker is created during Init exactly when `cmn.CreateFile`
succeeds and Init returns true even on creation failure (the run
continues); Fini attempts the removal exactly when the run was not
aborted, so a successful removal empties the marker on a non-aborted run
while an abort — including one already in force when Fini starts — leaves
the marker in place. -/
theorem marker_lifecycle (createOk removeOk aborted0 : Bool) (g : Int)
    (casSeq abortSeq : Nat → Bool) (fuel : Nat) (r : FinResult)
    (h : globalRebFini createOk removeOk aborted0 casSeq abortSeq fuel = some r) :
    (globalRebInit createOk g).returned = true
  ∧ (globalRebInit createOk g).markerExists = createOk
  ∧ r.removeAttempted = !r.abortedFinal
  ∧ (aborted0 = true → r.abortedFinal = true)
  ∧ (r.abortedFinal = true → r.markerAfter = createOk)
  ∧ (r.abortedFinal = false → removeOk = true → r.markerAfter = false) := by
  simp only [globalRebFini, Option.map_eq_some'] at h
  obtain ⟨ab, hab, hr⟩ := h
  subst hr
  refine ⟨rfl, rfl, rfl, ?_, ?_, ?_⟩
  · intro h0
    subst h0
    cases fuel with
    | zero => exact absurd hab (by simp [finiLoop])
    | succ f =>
      simp only [finiLoop, Bool.not_true, Bool.and_false, Bool.false_eq_true,
        if_false, Option.some.injEq] at hab
      exact hab.symm
  · intro hab1
    replace hab1 : ab = true := hab1
    subst hab1
    simp
  · intro hab0 hrm
    replace hab0 : ab = false := hab0
    subst hab0
    simp [hrm]

/-- C5 witness: quiet run (no late objects, no abort, removal succeeds):
the marker created at Init is gone after Fini; and the abort side at the
same oracles with an initial abort in force keeps the marker. -/
theorem marker_lifecycle_witness :
    ((globalRebFini true true false (fun _ => false) (fun _ => false) 11).map
        FinResult.markerAfter = some false)
  ∧ ((globalRebFini true true true (fun _ => false) (fun _ => false) 11).map
        FinResult.markerAfter = some true) := by
  constructor
  · have h := marker_lifecycle true true false 7 (fun _ => false) (fun _ => false) 11
      { abortedFinal := false, removeAttempted := true, markerAfter := false,
        semaReleased := true, stage := rebStageDone } rfl
    rw [show globalRebFini true true false (fun _ => false) (fun _ => false) 11
      = some { abortedFinal := false, removeAttempted := true, markerAfter := false,
               semaReleased := true, stage := rebStageDone } from rfl]
    simp [h.2.2.2.2.2 rfl rfl]
  · have h := marker_lifecycle true true true 7 (fun _ => false) (fun _ => false) 11
      { abortedFinal := true, removeAttempted := false, markerAfter := true,
        semaReleased := true, stage := rebStageDone } rfl
    rw [show globalRebFini true true true (fun _ => false) (fun _ => false) 11
      = some { abortedFinal := true, removeAttempted := false, markerAfter := true,
               semaReleased := true, stage := rebStageDone } from rfl]
    simp [h.2.2.2.2.1 rfl]
